import Mathlib

/-!
Verification of the sshwifty SSH session FSM
(`src/application/commands/ssh.go`) against its specification.

The Go source is shallowly embedded: every stateful operation becomes an
explicit state-passing function, channels become lists of the values sent
on them, and side effects (closing a channel, calling `closer()`, invoking
`WindowChange`, writing to the remote stdin) become events recorded in an
event list.  Blocking channel receives take an explicit oracle argument
describing what the other task eventually does (deliver a value or close
the channel).
-/

namespace Sshwifty

/-! ## Constants (`ssh.go` lines 37-72) -/

/-- Server -> client signal consts. -/
def SSHServerRemoteStdOut : Nat := 0x00
def SSHServerRemoteStdErr : Nat := 0x01
def SSHServerHookOutputBeforeConnecting : Nat := 0x02
def SSHServerConnectFailed : Nat := 0x03
def SSHServerConnectSucceed : Nat := 0x04
def SSHServerConnectVerifyFingerprint : Nat := 0x05
def SSHServerConnectRequestCredential : Nat := 0x06

/-- Client -> server signal consts. -/
def SSHClientStdIn : Nat := 0x00
def SSHClientResize : Nat := 0x01
def SSHClientRespondFingerprint : Nat := 0x02
def SSHClientRespondCredential : Nat := 0x03

def sshCredentialMaxSize : Nat := 4096

/-- Error codes (wrapped in `command.StreamError` in the source). -/
def SSHRequestErrorBadUserName : Nat := 0x01
def SSHRequestErrorBadRemoteAddress : Nat := 0x02
def SSHRequestErrorBadAuthMethod : Nat := 0x03

/-- Auth methods. -/
def SSHAuthMethodNone : Nat := 0x00
def SSHAuthMethodPassphrase : Nat := 0x01
def SSHAuthMethodPrivateKey : Nat := 0x02

/-! ## Errors (`ssh.go` lines 76-107) -/

inductive SSHError where
  | authCancelled
  | invalidAuthMethod
  | invalidAddress
  | remoteFingerprintVerificationCancelled
  | remoteFingerprintRefused
  | remoteConnUnavailable
  | unexpectedFingerprintVerificationRespond
  | unexpectedCredentialDataRespond
  | credentialDataTooLarge
  | unknownClientSignal
deriving DecidableEq, Repr

/-- The message text each error carries in the source. -/
def sshErrorMessage : SSHError → String
  | .authCancelled => "authentication has been cancelled"
  | .invalidAuthMethod => "invalid auth method"
  | .invalidAddress => "invalid address"
  | .remoteFingerprintVerificationCancelled =>
      "server Fingerprint verification process has been cancelled"
  | .remoteFingerprintRefused => "server Fingerprint has been refused"
  | .remoteConnUnavailable => "remote SSH connection is unavailable"
  | .unexpectedFingerprintVerificationRespond =>
      "unexpected fingerprint verification respond"
  | .unexpectedCredentialDataRespond => "unexpected credential data respond"
  | .credentialDataTooLarge => "credential was too large"
  | .unknownClientSignal => "unknown client signal"

/-- An error returned from a handler: either one of the named SSH errors or
an external I/O error coming from the framed reader / the net layer. -/
inductive LocalError where
  | sshErr (e : SSHError)
  | readErr
deriving DecidableEq, Repr

/-! ## Read-timeout retry discipline (`ssh.go` lines 117-140, 360-426)

The mutex-guarded flag pair `remoteReadTimeoutRetry` /
`remoteReadForceRetryNextTimeout` together with the connection's read
deadline.  The deadline is `some t` when set to the absolute time `t` and
`none` when cleared (`sshEmptyTime`). -/

structure RetryState where
  remoteReadTimeoutRetry : Bool
  remoteReadForceRetryNextTimeout : Bool
  readDeadline : Option Nat
deriving DecidableEq, Repr

/-- `enableRemoteReadTimeoutRetry` (`ssh.go` lines 360-365). -/
def enableRemoteReadTimeoutRetry (s : RetryState) : RetryState :=
  { s with remoteReadTimeoutRetry := true }

/-- `disableRemoteReadTimeoutRetry` (`ssh.go` lines 367-373). -/
def disableRemoteReadTimeoutRetry (s : RetryState) : RetryState :=
  { s with remoteReadTimeoutRetry := false,
           remoteReadForceRetryNextTimeout := true }

/-- The `requestTimeoutRetry` hook installed by `dialRemote`
(`ssh.go` lines 389-403).  `now` is the current time and `timeout` is
`config.Timeout`; `SetReadDeadline(time.Now().Add(config.Timeout))`
becomes `readDeadline := some (now + timeout)`. -/
def requestTimeoutRetry (now timeout : Nat) (s : RetryState) :
    Bool × RetryState :=
  if !s.remoteReadTimeoutRetry then
    if !s.remoteReadForceRetryNextTimeout then
      (false, s)
    else
      let s := { s with remoteReadForceRetryNextTimeout := false }
      (true, { s with readDeadline := some (now + timeout) })
  else
    (true, { s with readDeadline := some (now + timeout) })

/-- The `clearConnInitialDeadline` closure returned by `dialRemote`
(`ssh.go` lines 417-425): disables retry, arms the force-next latch and
clears the read deadline (`SetReadDeadline(sshEmptyTime)`). -/
def clearConnInitialDeadline (s : RetryState) : RetryState :=
  { s with remoteReadTimeoutRetry := false,
           remoteReadForceRetryNextTimeout := true,
           readDeadline := none }

/-- Outcome of one underlying `Conn.Read` call. -/
inductive ReadResult where
  | ok (n : Nat)
  | errTimeout
  | errOther
deriving DecidableEq, Repr

/-- `sshRemoteConnWrapper.Read` (`ssh.go` lines 124-136): loops over the
underlying reads; a success or a non-timeout error returns as-is; a
timeout consults `requestTimeoutRetry` and retries while it grants.  The
list supplies the successive underlying read outcomes; `none` means the
modelled outcome stream was exhausted while the loop still wanted to
read. -/
def sshRemoteConnWrapperRead (now timeout : Nat) (s : RetryState) :
    List ReadResult → Option (ReadResult × RetryState)
  | [] => none
  | r :: rest =>
    match r with
    | .ok n => some (.ok n, s)
    | .errOther => some (.errOther, s)
    | .errTimeout =>
      let p := requestTimeoutRetry now timeout s
      if p.1 then sshRemoteConnWrapperRead now timeout p.2 rest
      else some (.errTimeout, p.2)

/-- A sequence of calls to the `requestTimeoutRetry` hook, each with its
own `(now, timeout)` pair; returns the list of hook results and the final
state. -/
def runRetryCalls (s : RetryState) : List (Nat × Nat) → List Bool × RetryState
  | [] => ([], s)
  | c :: rest =>
    let p := requestTimeoutRetry c.1 c.2 s
    let q := runRetryCalls p.2 rest
    (p.1 :: q.1, q.2)

/-! ## Session state (`ssh.go` lines 152-200)

Channels are embedded as the list of values ever sent on them plus a
closed flag; `remoteConnReceive` additionally collapses to whether a valid
handle has been cached by `getRemote` (every `sshRemoteConn` the remote
task sends has all three fields non-nil, hence is valid). -/

structure SessionState where
  credentialProcessed : Bool
  fingerprintProcessed : Bool
  credentialReceiveClosed : Bool
  fingerprintVerifyResultReceiveClosed : Bool
  /-- Values sent on the `credentialReceive` channel, in order. -/
  credentialSends : List (List Nat)
  /-- Values sent on the `fingerprintVerifyResultReceive` channel, in order. -/
  fingerprintSends : List Bool
  /-- `d.remoteConn.isValid()`: a remote handle has been cached. -/
  remoteConnCached : Bool
  /-- The `remoteConnReceive` channel has been closed by the remote task. -/
  remoteConnChanClosed : Bool
  /-- The base context has been cancelled (`baseCtxCancel` is a
  `sync.OnceFunc`, so the underlying cancel runs at most once). -/
  ctxCancelled : Bool
deriving DecidableEq, Repr

/-- The state `newSSH` builds (`ssh.go` lines 173-200). -/
def initialSessionState : SessionState :=
  { credentialProcessed := false
    fingerprintProcessed := false
    credentialReceiveClosed := false
    fingerprintVerifyResultReceiveClosed := false
    credentialSends := []
    fingerprintSends := []
    remoteConnCached := false
    remoteConnChanClosed := false
    ctxCancelled := false }

/-- Externally observable side effects of the handlers. -/
inductive SessionEvent where
  | closerCalled
  | logFailure
  | windowChange (rows cols : Nat)
  | stdinWrite (data : List Nat)
  | closeCredentialReceive
  | closeFingerprintReceive
  | cancelBaseCtx
  | waitRemoteClose
deriving DecidableEq, Repr

/-- `getRemote` (`ssh.go` lines 591-603).  Returns `true` when a valid
handle is (now) cached, `false` for `ErrSSHRemoteConnUnavailable`.  When
the receive on `remoteConnReceive` would block, the oracle `arrival`
says what the remote task eventually does: `true` = it delivers the
handle, `false` = it closes the channel. -/
def getRemote (arrival : Bool) (s : SessionState) : SessionState × Bool :=
  if s.remoteConnCached then (s, true)
  else if s.remoteConnChanClosed then (s, false)
  else if arrival then ({ s with remoteConnCached := true }, true)
  else ({ s with remoteConnChanClosed := true }, false)

/-- One `r.Buffered()` round of the StdIn loop: either the read fails, or
it yields a chunk of bytes whose subsequent write to the remote stdin
succeeds or fails (`writeFails`). -/
inductive StdInChunk where
  | readError
  | data (bytes : List Nat) (writeFails : Bool)
deriving DecidableEq, Repr

/-- The StdIn drain loop (`ssh.go` lines 618-629): a read error returns
it; otherwise the chunk is written, a failing write triggers `closer()`
plus a debug log, and the loop continues until the reader is done. -/
def stdInLoop : List StdInChunk → Option LocalError × List SessionEvent
  | [] => (none, [])
  | .readError :: _ => (some .readErr, [])
  | .data bytes wf :: rest =>
    let evs := SessionEvent.stdinWrite bytes ::
      (if wf then [SessionEvent.closerCalled, SessionEvent.logFailure] else [])
    let r := stdInLoop rest
    (r.1, evs ++ r.2)

/-- The `SSHClientStdIn` branch of `local` (`ssh.go` lines 612-631). -/
def handleStdIn (arrival : Bool) (chunks : List StdInChunk)
    (s : SessionState) : SessionState × Option LocalError × List SessionEvent :=
  let g := getRemote arrival s
  if g.2 then
    let r := stdInLoop chunks
    (g.1, r.1, r.2)
  else
    (g.1, some (.sshErr .remoteConnUnavailable), [])

/-- The `SSHClientResize` branch of `local` (`ssh.go` lines 633-658):
`io.ReadFull(r, b[:4])` fails on a short payload; otherwise
`rows := int(b[0]); rows <<= 8; rows |= int(b[1])` and likewise for
`cols` from `b[2] b[3]`; `WindowChange` failure is logged, not
returned. -/
def handleResize (arrival : Bool) (payload : List Nat) (wcFails : Bool)
    (s : SessionState) : SessionState × Option LocalError × List SessionEvent :=
  let g := getRemote arrival s
  if !g.2 then (g.1, some (.sshErr .remoteConnUnavailable), [])
  else
    match payload with
    | b0 :: b1 :: b2 :: b3 :: _ =>
      let rows := (b0 <<< 8) ||| b1
      let cols := (b2 <<< 8) ||| b3
      (g.1, none,
        SessionEvent.windowChange rows cols ::
          (if wcFails then [SessionEvent.logFailure] else []))
    | _ => (g.1, some .readErr, [])

/-- The `SSHClientRespondFingerprint` branch of `local`
(`ssh.go` lines 660-685).  `fetch` is the result of
`rw.FetchOneByte(r.Fetch)` (`none` = read error).  A non-zero byte sends
`false` and then best-effort closes the remote handle; `0x00` sends
`true`. -/
def handleRespondFingerprint (arrival : Bool) (fetch : Option Nat)
    (s : SessionState) : SessionState × Option LocalError × List SessionEvent :=
  if s.fingerprintProcessed then
    (s, some (.sshErr .unexpectedFingerprintVerificationRespond), [])
  else
    let s := { s with fingerprintProcessed := true }
    match fetch with
    | none => (s, some .readErr, [])
    | some b =>
      let comfirmed := b == 0
      if !comfirmed then
        let s := { s with fingerprintSends := s.fingerprintSends ++ [false] }
        let g := getRemote arrival s
        if g.2 then (g.1, none, [SessionEvent.closerCalled])
        else (g.1, none, [])
      else
        ({ s with fingerprintSends := s.fingerprintSends ++ [true] }, none, [])

/-- The credential read loop (`ssh.go` lines 702-717): sums the chunk
lengths into `totalCredentialRead`, errors as soon as the total exceeds
`bufSize`, otherwise appends into the buffer.  A `none` chunk is a
`r.Buffered()` read error. -/
def readCredentialChunks (bufSize : Nat) (chunks : List (Option (List Nat)))
    (acc : List Nat) (totalCredentialRead : Nat) :
    Except LocalError (List Nat) :=
  match chunks with
  | [] => .ok acc
  | none :: _ => .error .readErr
  | some c :: rest =>
    let total := totalCredentialRead + c.length
    if total > bufSize then .error (.sshErr .credentialDataTooLarge)
    else readCredentialChunks bufSize rest (acc ++ c) total

/-- The `SSHClientRespondCredential` branch of `local`
(`ssh.go` lines 687-721).  `remains` is `r.Remains()`, the total framed
payload still to be read when the branch starts. -/
def handleRespondCredential (remains : Nat)
    (chunks : List (Option (List Nat))) (s : SessionState) :
    SessionState × Option LocalError × List SessionEvent :=
  if s.credentialProcessed then
    (s, some (.sshErr .unexpectedCredentialDataRespond), [])
  else
    let s := { s with credentialProcessed := true }
    let sshCredentialBufSize :=
      if remains > sshCredentialMaxSize then sshCredentialMaxSize else remains
    match readCredentialChunks sshCredentialBufSize chunks [] 0 with
    | .error e => (s, some e, [])
    | .ok buf =>
      ({ s with credentialSends := s.credentialSends ++ [buf] }, none, [])

/-- An inbound client frame together with the oracles describing what the
external reader / remote task do while it is handled. -/
inductive ClientFrame where
  | stdIn (arrival : Bool) (chunks : List StdInChunk)
  | resize (arrival : Bool) (payload : List Nat) (wcFails : Bool)
  | respondFingerprint (arrival : Bool) (fetch : Option Nat)
  | respondCredential (remains : Nat) (chunks : List (Option (List Nat)))
  | unknown (marker : Nat)
deriving DecidableEq, Repr

/-- The `local` FSM state (`ssh.go` lines 605-726): dispatch on the frame
marker. -/
def localHandle (f : ClientFrame) (s : SessionState) :
    SessionState × Option LocalError × List SessionEvent :=
  match f with
  | .stdIn a c => handleStdIn a c s
  | .resize a p w => handleResize a p w s
  | .respondFingerprint a fe => handleRespondFingerprint a fe s
  | .respondCredential r c => handleRespondCredential r c s
  | .unknown _ => (s, some (.sshErr .unknownClientSignal), [])

/-- `Close` (`ssh.go` lines 728-753).  The final `remoteCloseWait.Wait()`
returns only after the remote task ran its deferred cleanup, which closes
`remoteConnReceive`; hence the post-state records that channel as
closed.  Always returns `nil`. -/
def closeSession (arrival : Bool) (s : SessionState) :
    SessionState × Option LocalError × List SessionEvent :=
  let s1 := { s with credentialProcessed := true, fingerprintProcessed := true }
  let credPart : SessionState × List SessionEvent :=
    if !s1.credentialReceiveClosed then
      ({ s1 with credentialReceiveClosed := true },
       [SessionEvent.closeCredentialReceive])
    else (s1, [])
  let s2 := credPart.1
  let fpPart : SessionState × List SessionEvent :=
    if !s2.fingerprintVerifyResultReceiveClosed then
      ({ s2 with fingerprintVerifyResultReceiveClosed := true },
       [SessionEvent.closeFingerprintReceive])
    else (s2, [])
  let s3 := fpPart.1
  let g := getRemote arrival s3
  let closerEvs : List SessionEvent :=
    if g.2 then [SessionEvent.closerCalled] else []
  let s4 := g.1
  let cancelPart : SessionState × List SessionEvent :=
    if !s4.ctxCancelled then
      ({ s4 with ctxCancelled := true }, [SessionEvent.cancelBaseCtx])
    else (s4, [])
  let s5 := cancelPart.1
  let s6 := { s5 with remoteConnChanClosed := true }
  (s6, none,
    credPart.2 ++ fpPart.2 ++ closerEvs ++ cancelPart.2 ++
      [SessionEvent.waitRemoteClose])

/-- One operation the outer dispatcher can perform on a session in the
`Local` state. -/
inductive SessionOp where
  | frame (f : ClientFrame)
  | close (arrival : Bool)
deriving DecidableEq, Repr

def stepSession (s : SessionState) (op : SessionOp) : SessionState :=
  match op with
  | .frame f => (localHandle f s).1
  | .close a => (closeSession a s).1

def runSession (s : SessionState) : List SessionOp → SessionState
  | [] => s
  | op :: rest => runSession (stepSession s op) rest

/-! ## Fingerprint confirmation (`ssh.go` lines 329-358) -/

/-- An outbound frame: marker plus payload. -/
structure SentFrame where
  marker : Nat
  payload : List Nat
deriving DecidableEq, Repr

/-- `confirmRemoteFingerprint` (`ssh.go` lines 329-358), after the
enable/disable retry bracketing.  `fgp` is the printable SHA-256
fingerprint text (computed by `ssh.FingerprintSHA256`), `sendErr` the
result of `SendManual`, and `recv` the value received from
`fingerprintVerifyResultReceive` (`none` = channel closed). -/
def confirmRemoteFingerprint (fgp : List Nat) (sendErr : Option SSHError)
    (recv : Option Bool) : SentFrame × Option SSHError :=
  let frame := SentFrame.mk SSHServerConnectVerifyFingerprint fgp
  match sendErr with
  | some e => (frame, some e)
  | none =>
    match recv with
    | none => (frame, some SSHError.remoteFingerprintVerificationCancelled)
    | some false => (frame, some SSHError.remoteFingerprintRefused)
    | some true => (frame, none)

/-! ## Bootup (`ssh.go` lines 217-327) -/

inductive SSHAuthMethodKind where
  | noneAuth
  | passphrase
  | privateKey
deriving DecidableEq, Repr

/-- `buildAuthMethod` (`ssh.go` lines 262-327): the switch on the auth
method byte. -/
def buildAuthMethod (methodType : Nat) : Except SSHError SSHAuthMethodKind :=
  if methodType = SSHAuthMethodNone then .ok .noneAuth
  else if methodType = SSHAuthMethodPassphrase then .ok .passphrase
  else if methodType = SSHAuthMethodPrivateKey then .ok .privateKey
  else .error .invalidAuthMethod

/-- `command.FSMError`: the wrapped error text plus its stream error
code; `command.NoFSMError()` is `none` below. -/
structure FSMError where
  message : String
  code : Nat
deriving DecidableEq, Repr

/-- The next FSM state `Bootup` can return (the `local` handler). -/
inductive FSMNext where
  | localState
deriving DecidableEq, Repr

/-- `Bootup` (`ssh.go` lines 217-260).  `ParseString`, `ParseAddress` and
`rw.FetchOneByte` live outside this file; their outcomes are passed in:
`userRes` is the parsed user name, `addrRes` the result of
`ParseAddress` already rendered through `addr.String()`, and `authRes`
the fetched auth method byte. -/
def Bootup (userRes : Except String (List Nat))
    (addrRes : Except String String) (authRes : Except String Nat) :
    Option FSMNext × Option FSMError :=
  match userRes with
  | .error e => (none, some ⟨e, SSHRequestErrorBadUserName⟩)
  | .ok _ =>
    match addrRes with
    | .error e => (none, some ⟨e, SSHRequestErrorBadRemoteAddress⟩)
    | .ok addrStr =>
      if addrStr.length ≤ 0 then
        (none, some ⟨sshErrorMessage .invalidAddress,
                     SSHRequestErrorBadRemoteAddress⟩)
      else
        match authRes with
        | .error e => (none, some ⟨e, SSHRequestErrorBadAuthMethod⟩)
        | .ok b =>
          match buildAuthMethod b with
          | .error e => (none, some ⟨sshErrorMessage e,
                                     SSHRequestErrorBadAuthMethod⟩)
          | .ok _ => (some .localState, none)

/-- The single-send invariant on the two rendezvous channels: each has
seen at most one send, and a channel that has seen a send has its
one-shot flag raised. -/
def sendsInv (s : SessionState) : Prop :=
  s.credentialSends.length ≤ 1 ∧ s.fingerprintSends.length ≤ 1 ∧
  (s.credentialProcessed = false → s.credentialSends = []) ∧
  (s.fingerprintProcessed = false → s.fingerprintSends = [])

/-! ## Helper lemmas -/

/-- Once both retry flags are down, every further hook call returns
`false` and leaves the state untouched. -/
theorem runRetryCalls_all_false (calls : List (Nat × Nat)) (s : RetryState)
    (h1 : s.remoteReadTimeoutRetry = false)
    (h2 : s.remoteReadForceRetryNextTimeout = false) :
    runRetryCalls s calls = (List.replicate calls.length false, s) := by
  induction calls with
  | nil => rfl
  | cons c rest ih =>
    simp [runRetryCalls, requestTimeoutRetry, h1, h2, ih, List.replicate]

/-- `getRemote` only ever touches the two remote-connection fields. -/
theorem getRemote_fst (a : Bool) (s : SessionState) :
    (getRemote a s).1 =
      { s with
        remoteConnCached :=
          s.remoteConnCached || (!s.remoteConnChanClosed && a),
        remoteConnChanClosed :=
          s.remoteConnChanClosed || (!s.remoteConnCached && !a) } := by
  rcases s with ⟨cp, fp, cc, fc, cs, fsd, rc, rx, cx⟩
  cases rc <;> cases rx <;> cases a <;> simp [getRemote]

theorem handleStdIn_fst (a : Bool) (c : List StdInChunk) (s : SessionState) :
    (handleStdIn a c s).1 = (getRemote a s).1 := by
  simp [handleStdIn, apply_ite Prod.fst]

theorem handleResize_fst (a : Bool) (p : List Nat) (w : Bool)
    (s : SessionState) :
    (handleResize a p w s).1 = (getRemote a s).1 := by
  rcases p with _ | ⟨b0, _ | ⟨b1, _ | ⟨b2, _ | ⟨b3, rest⟩⟩⟩⟩ <;>
    simp [handleResize, apply_ite Prod.fst]

/-- `Close` raises every one-shot flag, closes both rendezvous channels,
cancels the context, and returns with `remoteConnReceive` closed; it
never touches the send lists. -/
theorem closeSession_fst (a : Bool) (s : SessionState) :
    (closeSession a s).1 =
      { s with
        credentialProcessed := true,
        fingerprintProcessed := true,
        credentialReceiveClosed := true,
        fingerprintVerifyResultReceiveClosed := true,
        remoteConnCached :=
          s.remoteConnCached || (!s.remoteConnChanClosed && a),
        remoteConnChanClosed := true,
        ctxCancelled := true } := by
  rcases s with ⟨cp, fp, cc, fc, cs, fsd, rc, rx, cx⟩
  cases cc <;> cases fc <;> cases rc <;> cases rx <;> cases cx <;> cases a <;>
    simp [closeSession, getRemote]

/-- The post-state of the RespondFingerprint branch, in closed form. -/
theorem handleRespondFingerprint_fst (a : Bool) (fe : Option Nat)
    (s : SessionState) :
    (handleRespondFingerprint a fe s).1 =
      if s.fingerprintProcessed then s
      else
        match fe with
        | none => { s with fingerprintProcessed := true }
        | some b =>
          if b == 0 then
            { s with fingerprintProcessed := true,
                     fingerprintSends := s.fingerprintSends ++ [true] }
          else
            { s with fingerprintProcessed := true,
                     fingerprintSends := s.fingerprintSends ++ [false],
                     remoteConnCached :=
                       s.remoteConnCached || (!s.remoteConnChanClosed && a),
                     remoteConnChanClosed :=
                       s.remoteConnChanClosed || (!s.remoteConnCached && !a) } := by
  unfold handleRespondFingerprint
  split
  · next hp => simp [hp]
  · next hp =>
    simp only [Bool.not_eq_true] at hp
    cases fe with
    | none => simp [hp]
    | some b =>
      by_cases hb : (b == 0) = true
      · simp [hp, hb]
      · simp only [Bool.not_eq_true] at hb
        simp [hp, hb, getRemote_fst, apply_ite Prod.fst]

/-- The post-state of the RespondCredential branch, in closed form. -/
theorem handleRespondCredential_fst (r : Nat)
    (c : List (Option (List Nat))) (s : SessionState) :
    (handleRespondCredential r c s).1 =
      if s.credentialProcessed then s
      else
        match readCredentialChunks
            (if r > sshCredentialMaxSize then sshCredentialMaxSize else r)
            c [] 0 with
        | .error _ => { s with credentialProcessed := true }
        | .ok buf => { s with credentialProcessed := true,
                              credentialSends := s.credentialSends ++ [buf] } := by
  unfold handleRespondCredential
  split
  · next hp => simp [hp]
  · next hp =>
    simp only [Bool.not_eq_true] at hp
    simp only [hp, if_false]
    split <;> next heq => simp [heq]

/-- Once the credential one-shot flag is raised, no operation ever sends
on `credentialReceive` again, and the flag stays raised. -/
theorem step_credential_frozen (op : SessionOp) (s : SessionState)
    (h : s.credentialProcessed = true) :
    (stepSession s op).credentialSends = s.credentialSends ∧
    (stepSession s op).credentialProcessed = true := by
  cases op with
  | close a => simp [stepSession, closeSession_fst]
  | frame f =>
    cases f with
    | stdIn a c => simp [stepSession, localHandle, handleStdIn_fst,
        getRemote_fst, h]
    | resize a p w => simp [stepSession, localHandle, handleResize_fst,
        getRemote_fst, h]
    | unknown m => simp [stepSession, localHandle, h]
    | respondCredential r c =>
      simp [stepSession, localHandle, handleRespondCredential_fst, h]
    | respondFingerprint a fe =>
      simp only [stepSession, localHandle, handleRespondFingerprint_fst]
      split
      · exact ⟨rfl, h⟩
      · cases fe with
        | none => exact ⟨rfl, h⟩
        | some b =>
          dsimp only
          split <;> exact ⟨rfl, h⟩

/-- Symmetrically for the fingerprint channel. -/
theorem step_fingerprint_frozen (op : SessionOp) (s : SessionState)
    (h : s.fingerprintProcessed = true) :
    (stepSession s op).fingerprintSends = s.fingerprintSends ∧
    (stepSession s op).fingerprintProcessed = true := by
  cases op with
  | close a => simp [stepSession, closeSession_fst]
  | frame f =>
    cases f with
    | stdIn a c => simp [stepSession, localHandle, handleStdIn_fst,
        getRemote_fst, h]
    | resize a p w => simp [stepSession, localHandle, handleResize_fst,
        getRemote_fst, h]
    | unknown m => simp [stepSession, localHandle, h]
    | respondFingerprint a fe =>
      simp [stepSession, localHandle, handleRespondFingerprint_fst, h]
    | respondCredential r c =>
      simp only [stepSession, localHandle, handleRespondCredential_fst]
      split
      · exact ⟨rfl, h⟩
      · split <;> exact ⟨rfl, h⟩

theorem runSession_credential_frozen (ops : List SessionOp)
    (s : SessionState) (h : s.credentialProcessed = true) :
    (runSession s ops).credentialSends = s.credentialSends ∧
    (runSession s ops).credentialProcessed = true := by
  induction ops generalizing s with
  | nil => exact ⟨rfl, h⟩
  | cons op rest ih =>
    obtain ⟨h1, h2⟩ := step_credential_frozen op s h
    obtain ⟨h3, h4⟩ := ih (stepSession s op) h2
    exact ⟨h3.trans h1, h4⟩

theorem runSession_fingerprint_frozen (ops : List SessionOp)
    (s : SessionState) (h : s.fingerprintProcessed = true) :
    (runSession s ops).fingerprintSends = s.fingerprintSends ∧
    (runSession s ops).fingerprintProcessed = true := by
  induction ops generalizing s with
  | nil => exact ⟨rfl, h⟩
  | cons op rest ih =>
    obtain ⟨h1, h2⟩ := step_fingerprint_frozen op s h
    obtain ⟨h3, h4⟩ := ih (stepSession s op) h2
    exact ⟨h3.trans h1, h4⟩

/-- Every operation preserves the single-send invariant. -/
theorem sendsInv_step (op : SessionOp) (s : SessionState)
    (h : sendsInv s) : sendsInv (stepSession s op) := by
  obtain ⟨hc1, hf1, hc2, hf2⟩ := h
  unfold sendsInv
  cases op with
  | close a =>
    simp only [stepSession, closeSession_fst]
    exact ⟨hc1, hf1, by simp, by simp⟩
  | frame f =>
    cases f with
    | stdIn a c =>
      simp only [stepSession, localHandle, handleStdIn_fst, getRemote_fst]
      exact ⟨hc1, hf1, hc2, hf2⟩
    | resize a p w =>
      simp only [stepSession, localHandle, handleResize_fst, getRemote_fst]
      exact ⟨hc1, hf1, hc2, hf2⟩
    | unknown m =>
      exact ⟨hc1, hf1, hc2, hf2⟩
    | respondCredential r c =>
      simp only [stepSession, localHandle, handleRespondCredential_fst]
      split
      · exact ⟨hc1, hf1, hc2, hf2⟩
      · next hp =>
        have hs : s.credentialSends = [] := hc2 (by simpa using hp)
        split <;> exact ⟨by simp [hs], hf1, by simp, hf2⟩
    | respondFingerprint a fe =>
      simp only [stepSession, localHandle, handleRespondFingerprint_fst]
      split
      · exact ⟨hc1, hf1, hc2, hf2⟩
      · next hp =>
        have hs : s.fingerprintSends = [] := hf2 (by simpa using hp)
        cases fe with
        | none => exact ⟨hc1, by simp [hs], hc2, by simp⟩
        | some b =>
          dsimp only
          split <;> exact ⟨hc1, by simp [hs], hc2, by simp⟩

theorem sendsInv_run (ops : List SessionOp) (s : SessionState)
    (h : sendsInv s) : sendsInv (runSession s ops) := by
  induction ops generalizing s with
  | nil => exact h
  | cons op rest ih => exact ih (stepSession s op) (sendsInv_step op s h)

theorem sendsInv_initial : sendsInv initialSessionState := by
  simp [sendsInv, initialSessionState]

/-! ## Claim theorems -/

/-- C1, counterexample: starting from the flag state `dialRemote`
installs, invoking `clearConnInitialDeadline` and then calling the
`requestTimeoutRetry` hook does NOT return `false`: the very first call
after the clear consumes the `remoteReadForceRetryNextTimeout` latch the
clear armed and returns `true`, retrying the timeout. -/
theorem C1_first_retry_after_clear_counterexample :
    (requestTimeoutRetry 0 30
      (clearConnInitialDeadline
        { remoteReadTimeoutRetry := false,
          remoteReadForceRetryNextTimeout := false,
          readDeadline := some 30 })).1 = true := by
  decide

/-- C1, amended: after `clearConnInitialDeadline` runs,
`remoteReadTimeoutRetry` is false, `remoteReadForceRetryNextTimeout` is
true and the read deadline is cleared; the first `requestTimeoutRetry`
call (with no intervening `enableRemoteReadTimeoutRetry`) consumes the
latch and returns `true`, and every call after that returns `false`; in
particular a second read timeout on the wrapped connection surfaces to
the caller of `Read` instead of being retried. -/
theorem C1_timeouts_after_clearConnInitialDeadline (s : RetryState)
    (now timeout now2 timeout2 : Nat) (rest : List (Nat × Nat))
    (reads : List ReadResult) :
    (clearConnInitialDeadline s).remoteReadTimeoutRetry = false ∧
    (clearConnInitialDeadline s).remoteReadForceRetryNextTimeout = true ∧
    (clearConnInitialDeadline s).readDeadline = none ∧
    (requestTimeoutRetry now timeout (clearConnInitialDeadline s)).1 = true ∧
    (runRetryCalls
        (requestTimeoutRetry now timeout (clearConnInitialDeadline s)).2
        rest).1
      = List.replicate rest.length false ∧
    sshRemoteConnWrapperRead now2 timeout2
        (requestTimeoutRetry now timeout (clearConnInitialDeadline s)).2
        (ReadResult.errTimeout :: reads)
      = some (ReadResult.errTimeout,
          (requestTimeoutRetry now timeout (clearConnInitialDeadline s)).2) := by
  refine ⟨rfl, rfl, rfl, ?_, ?_, ?_⟩
  · simp [requestTimeoutRetry, clearConnInitialDeadline]
  · rw [runRetryCalls_all_false] <;>
      simp [requestTimeoutRetry, clearConnInitialDeadline]
  · simp [sshRemoteConnWrapperRead, requestTimeoutRetry,
      clearConnInitialDeadline]

/-- C2: the `requestTimeoutRetry` hook retries (resetting the read
deadline) whenever `remoteReadTimeoutRetry` is set; otherwise it retries
exactly once more, consuming the `remoteReadForceRetryNextTimeout`
latch; otherwise it refuses without touching the deadline.
`enableRemoteReadTimeoutRetry` only raises the retry flag, and
`disableRemoteReadTimeoutRetry` lowers it while arming the latch. -/
theorem C2_requestTimeoutRetry_flag_discipline (s : RetryState)
    (now timeout : Nat) :
    (s.remoteReadTimeoutRetry = true →
      requestTimeoutRetry now timeout s =
        (true, { s with readDeadline := some (now + timeout) })) ∧
    (s.remoteReadTimeoutRetry = false →
      s.remoteReadForceRetryNextTimeout = true →
      requestTimeoutRetry now timeout s =
        (true, { s with remoteReadForceRetryNextTimeout := false,
                        readDeadline := some (now + timeout) })) ∧
    (s.remoteReadTimeoutRetry = false →
      s.remoteReadForceRetryNextTimeout = false →
      requestTimeoutRetry now timeout s = (false, s)) ∧
    enableRemoteReadTimeoutRetry s =
      { s with remoteReadTimeoutRetry := true } ∧
    disableRemoteReadTimeoutRetry s =
      { s with remoteReadTimeoutRetry := false,
               remoteReadForceRetryNextTimeout := true } := by
  refine ⟨?_, ?_, ?_, rfl, rfl⟩
  · intro h1
    simp [requestTimeoutRetry, h1]
  · intro h1 h2
    simp [requestTimeoutRetry, h1, h2]
  · intro h1 h2
    simp [requestTimeoutRetry, h1, h2]

theorem C2_requestTimeoutRetry_flag_discipline_witness :
    requestTimeoutRetry 3 5 ⟨true, false, none⟩ =
      (true, ⟨true, false, some 8⟩) ∧
    requestTimeoutRetry 3 5 ⟨false, true, none⟩ =
      (true, ⟨false, false, some 8⟩) ∧
    requestTimeoutRetry 3 5 ⟨false, false, none⟩ =
      (false, ⟨false, false, none⟩) :=
  ⟨(C2_requestTimeoutRetry_flag_discipline ⟨true, false, none⟩ 3 5).1 rfl,
   (C2_requestTimeoutRetry_flag_discipline ⟨false, true, none⟩ 3 5).2.1
     rfl rfl,
   (C2_requestTimeoutRetry_flag_discipline ⟨false, false, none⟩ 3 5).2.2.1
     rfl rfl⟩

/-- C3: over every sequence of local-frame dispatches and `Close` calls,
each rendezvous channel is sent to at most once; a RespondCredential
frame arriving with the one-shot flag down raises it, a later one is
rejected with `unexpected credential data respond` without sending, and
symmetrically for RespondFingerprint with `unexpected fingerprint
verification respond`; `Close` raises both flags, after which no later
operation can ever send. -/
theorem C3_rendezvous_channels_single_send (ops ops2 : List SessionOp)
    (remains : Nat) (chunks : List (Option (List Nat)))
    (a : Bool) (fetch : Option Nat) :
    (runSession initialSessionState ops).credentialSends.length ≤ 1 ∧
    (runSession initialSessionState ops).fingerprintSends.length ≤ 1 ∧
    ((runSession initialSessionState ops).credentialProcessed = false →
      (localHandle (.respondCredential remains chunks)
          (runSession initialSessionState ops)).1.credentialProcessed = true) ∧
    ((runSession initialSessionState ops).credentialProcessed = true →
      localHandle (.respondCredential remains chunks)
          (runSession initialSessionState ops)
        = (runSession initialSessionState ops,
           some (.sshErr .unexpectedCredentialDataRespond), [])) ∧
    ((runSession initialSessionState ops).fingerprintProcessed = false →
      (localHandle (.respondFingerprint a fetch)
          (runSession initialSessionState ops)).1.fingerprintProcessed = true) ∧
    ((runSession initialSessionState ops).fingerprintProcessed = true →
      localHandle (.respondFingerprint a fetch)
          (runSession initialSessionState ops)
        = (runSession initialSessionState ops,
           some (.sshErr .unexpectedFingerprintVerificationRespond), [])) ∧
    (stepSession (runSession initialSessionState ops)
        (.close a)).credentialProcessed = true ∧
    (stepSession (runSession initialSessionState ops)
        (.close a)).fingerprintProcessed = true ∧
    (runSession (stepSession (runSession initialSessionState ops) (.close a))
        ops2).credentialSends
      = (stepSession (runSession initialSessionState ops)
          (.close a)).credentialSends ∧
    (runSession (stepSession (runSession initialSessionState ops) (.close a))
        ops2).fingerprintSends
      = (stepSession (runSession initialSessionState ops)
          (.close a)).fingerprintSends := by
  have hinv := sendsInv_run ops initialSessionState sendsInv_initial
  obtain ⟨hc1, hf1, hc2, hf2⟩ := hinv
  have hcloseC : (stepSession (runSession initialSessionState ops)
      (.close a)).credentialProcessed = true := by
    simp [stepSession, closeSession_fst]
  have hcloseF : (stepSession (runSession initialSessionState ops)
      (.close a)).fingerprintProcessed = true := by
    simp [stepSession, closeSession_fst]
  refine ⟨hc1, hf1, ?_, ?_, ?_, ?_, hcloseC, hcloseF, ?_, ?_⟩
  · intro hp
    simp [localHandle, handleRespondCredential_fst, hp]
    split <;> simp
  · intro hp
    simp [localHandle, handleRespondCredential, hp]
  · intro hp
    simp [localHandle, handleRespondFingerprint_fst, hp]
    split
    · rfl
    · split <;> rfl
  · intro hp
    simp [localHandle, handleRespondFingerprint, hp]
  · exact (runSession_credential_frozen ops2 _ hcloseC).1
  · exact (runSession_fingerprint_frozen ops2 _ hcloseF).1

theorem C3_rendezvous_channels_single_send_witness :
    (runSession initialSessionState [SessionOp.close true]).credentialSends.length ≤ 1 ∧
    localHandle (ClientFrame.respondCredential 1 [some [42]])
        (runSession initialSessionState [SessionOp.close true])
      = (runSession initialSessionState [SessionOp.close true],
         some (LocalError.sshErr SSHError.unexpectedCredentialDataRespond), []) ∧
    localHandle (ClientFrame.respondFingerprint true (some 0))
        (runSession initialSessionState [SessionOp.close true])
      = (runSession initialSessionState [SessionOp.close true],
         some (LocalError.sshErr
           SSHError.unexpectedFingerprintVerificationRespond), []) := by
  have h := C3_rendezvous_channels_single_send [SessionOp.close true] []
    1 [some [42]] true (some 0)
  exact ⟨h.1, h.2.2.2.1 (by decide), h.2.2.2.2.2.1 (by decide)⟩

/-- When the chunk lengths fit inside the buffer cap, the credential loop
assembles the full payload. -/
theorem readCredentialChunks_ok (bufSize : Nat) (chunks : List (List Nat))
    (acc : List Nat) (total : Nat)
    (h : total + (chunks.map List.length).sum ≤ bufSize) :
    readCredentialChunks bufSize (chunks.map some) acc total
      = .ok (acc ++ chunks.flatten) := by
  induction chunks generalizing acc total with
  | nil => simp [readCredentialChunks]
  | cons c rest ih =>
    have hc : ¬ (total + c.length > bufSize) := by
      simp only [List.map_cons, List.sum_cons] at h
      omega
    simp only [List.map_cons, readCredentialChunks, hc, if_false]
    rw [ih]
    · simp
    · simp only [List.map_cons, List.sum_cons] at h
      omega

/-- When the chunk lengths overflow the buffer cap, the credential loop
fails with the oversize error. -/
theorem readCredentialChunks_overflow (bufSize : Nat)
    (chunks : List (List Nat)) (acc : List Nat) (total : Nat)
    (hle : total ≤ bufSize)
    (h : bufSize < total + (chunks.map List.length).sum) :
    readCredentialChunks bufSize (chunks.map some) acc total
      = .error (.sshErr .credentialDataTooLarge) := by
  induction chunks generalizing acc total with
  | nil =>
    simp only [List.map_nil, List.sum_nil] at h
    omega
  | cons c rest ih =>
    by_cases hc : total + c.length > bufSize
    · simp [readCredentialChunks, hc]
    · simp only [List.map_cons, readCredentialChunks, hc, if_false]
      apply ih
      · omega
      · simp only [List.map_cons, List.sum_cons] at h
        omega

/-- Oversize RespondCredential: the flag is raised, the named error is
returned, nothing is sent. -/
theorem handleRespondCredential_oversize (s : SessionState) (remains : Nat)
    (chunks : List (List Nat)) (hp : s.credentialProcessed = false)
    (hsum : (chunks.map List.length).sum = remains)
    (hover : remains > sshCredentialMaxSize) :
    handleRespondCredential remains (chunks.map some) s
      = ({ s with credentialProcessed := true },
         some (.sshErr .credentialDataTooLarge), []) := by
  have herr : readCredentialChunks sshCredentialMaxSize (chunks.map some) [] 0
      = .error (.sshErr .credentialDataTooLarge) := by
    apply readCredentialChunks_overflow
    · exact Nat.zero_le _
    · rw [hsum]
      omega
  simp [handleRespondCredential, hp, hover, herr]

/-- In-cap RespondCredential: the assembled payload is sent, no error. -/
theorem handleRespondCredential_fits (s : SessionState) (remains : Nat)
    (chunks : List (List Nat)) (hp : s.credentialProcessed = false)
    (hsum : (chunks.map List.length).sum = remains)
    (hle : remains ≤ sshCredentialMaxSize) :
    handleRespondCredential remains (chunks.map some) s
      = ({ s with
             credentialProcessed := true,
             credentialSends := s.credentialSends ++ [chunks.flatten] },
         none, []) := by
  have hnot : ¬ (remains > sshCredentialMaxSize) := by omega
  have hok : readCredentialChunks remains (chunks.map some) [] 0
      = .ok chunks.flatten := by
    have h := readCredentialChunks_ok remains chunks [] 0 (by omega)
    simpa using h
  simp [handleRespondCredential, hp, hnot, hok]

/-- C4: a RespondCredential frame whose total framed payload exceeds
`sshCredentialMaxSize = 4096` bytes makes the `local` handler return
`credential was too large` with nothing sent on `credentialReceive`; one
of at most 4096 bytes (with the one-shot flag down) sends the assembled
payload and returns no error. -/
theorem C4_credential_size_cap (s : SessionState) (remains : Nat)
    (chunks : List (List Nat))
    (hp : s.credentialProcessed = false)
    (hsum : (chunks.map List.length).sum = remains) :
    (remains > sshCredentialMaxSize →
      handleRespondCredential remains (chunks.map some) s
        = ({ s with credentialProcessed := true },
           some (.sshErr .credentialDataTooLarge), [])) ∧
    (remains ≤ sshCredentialMaxSize →
      handleRespondCredential remains (chunks.map some) s
        = ({ s with
               credentialProcessed := true,
               credentialSends := s.credentialSends ++ [chunks.flatten] },
           none, [])) :=
  ⟨fun hover => handleRespondCredential_oversize s remains chunks hp hsum hover,
   fun hle => handleRespondCredential_fits s remains chunks hp hsum hle⟩

theorem C4_credential_size_cap_witness :
    handleRespondCredential 4097 ([List.replicate 4097 0].map some)
        initialSessionState
      = ({ initialSessionState with credentialProcessed := true },
         some (LocalError.sshErr SSHError.credentialDataTooLarge), []) ∧
    handleRespondCredential 2 ([[7, 9]].map some) initialSessionState
      = ({ initialSessionState with
             credentialProcessed := true,
             credentialSends := [[7, 9]] },
         none, []) := by
  constructor
  · exact (C4_credential_size_cap initialSessionState 4097
      [List.replicate 4097 0] rfl
      (by rw [List.map_cons, List.length_replicate, List.map_nil,
              List.sum_cons, List.sum_nil]; rfl)).1 (by decide)
  · have h := (C4_credential_size_cap initialSessionState 2 [[7, 9]] rfl
      (by simp)).2 (by decide)
    simpa using h

/-- C10: an oversize RespondCredential permanently consumes the session's
single credential attempt: it returns `credential was too large` with the
one-shot flag already raised and nothing sent, every later
RespondCredential frame is rejected with `unexpected credential data
respond`, and no later operation can ever deliver a value on
`credentialReceive`. -/
theorem C10_oversize_credential_consumes_attempt (s : SessionState)
    (remains remains2 : Nat) (chunks : List (List Nat))
    (chunks2 : List (Option (List Nat))) (ops : List SessionOp)
    (hp : s.credentialProcessed = false)
    (hsum : (chunks.map List.length).sum = remains)
    (hover : remains > sshCredentialMaxSize) :
    (handleRespondCredential remains (chunks.map some) s).2.1
      = some (.sshErr .credentialDataTooLarge) ∧
    (handleRespondCredential remains (chunks.map some) s).1.credentialProcessed
      = true ∧
    (handleRespondCredential remains (chunks.map some) s).1.credentialSends
      = s.credentialSends ∧
    handleRespondCredential remains2 chunks2
        (handleRespondCredential remains (chunks.map some) s).1
      = ((handleRespondCredential remains (chunks.map some) s).1,
         some (.sshErr .unexpectedCredentialDataRespond), []) ∧
    (runSession (handleRespondCredential remains (chunks.map some) s).1
        ops).credentialSends = s.credentialSends := by
  have h1 := handleRespondCredential_oversize s remains chunks hp hsum hover
  rw [h1]
  refine ⟨rfl, rfl, rfl, rfl, ?_⟩
  have h2 := runSession_credential_frozen ops
    { s with credentialProcessed := true } rfl
  simpa using h2.1

theorem C10_oversize_credential_consumes_attempt_witness :
    (handleRespondCredential 4097 ([List.replicate 4097 0].map some)
        initialSessionState).2.1
      = some (LocalError.sshErr SSHError.credentialDataTooLarge) ∧
    handleRespondCredential 3 [some [1, 2, 3]]
        (handleRespondCredential 4097 ([List.replicate 4097 0].map some)
          initialSessionState).1
      = ((handleRespondCredential 4097 ([List.replicate 4097 0].map some)
           initialSessionState).1,
         some (LocalError.sshErr SSHError.unexpectedCredentialDataRespond),
         []) := by
  have h := C10_oversize_credential_consumes_attempt initialSessionState
    4097 3 [List.replicate 4097 0] [some [1, 2, 3]] [] rfl
    (by rw [List.map_cons, List.length_replicate, List.map_nil,
            List.sum_cons, List.sum_nil]; rfl)
    (by decide)
  exact ⟨h.1, h.2.2.2.1⟩

/-- C5: `confirmRemoteFingerprint` sends the ConnectVerifyFingerprint
frame carrying the fingerprint text and returns success exactly when the
rendezvous yields `true`; `false` yields the refusal error and a closed
channel the cancellation error; on the sending side a RespondFingerprint
payload byte of `0x00` sends `true` and any other byte sends `false`. -/
theorem C5_fingerprint_confirmation_outcomes (fgp : List Nat)
    (recv : Option Bool) (s : SessionState) (a : Bool) (b : Nat)
    (hfp : s.fingerprintProcessed = false) :
    ((confirmRemoteFingerprint fgp none recv).2 = none ↔ recv = some true) ∧
    (confirmRemoteFingerprint fgp none (some false)).2
      = some SSHError.remoteFingerprintRefused ∧
    (confirmRemoteFingerprint fgp none none).2
      = some SSHError.remoteFingerprintVerificationCancelled ∧
    sshErrorMessage SSHError.remoteFingerprintRefused
      = "server Fingerprint has been refused" ∧
    sshErrorMessage SSHError.remoteFingerprintVerificationCancelled
      = "server Fingerprint verification process has been cancelled" ∧
    (confirmRemoteFingerprint fgp none recv).1.marker
      = SSHServerConnectVerifyFingerprint ∧
    (confirmRemoteFingerprint fgp none recv).1.payload = fgp ∧
    (handleRespondFingerprint a (some b) s).1.fingerprintSends
      = s.fingerprintSends ++ [b == 0] := by
  refine ⟨?_, rfl, rfl, rfl, rfl, ?_, ?_, ?_⟩
  · rcases recv with _ | b1
    · simp [confirmRemoteFingerprint]
    · cases b1 <;> simp [confirmRemoteFingerprint]
  · rcases recv with _ | b1
    · rfl
    · cases b1 <;> rfl
  · rcases recv with _ | b1
    · rfl
    · cases b1 <;> rfl
  · rw [handleRespondFingerprint_fst]
    by_cases hb : (b == 0) = true <;> simp [hfp, hb]

theorem C5_fingerprint_confirmation_outcomes_witness :
    ((confirmRemoteFingerprint [70] none (some true)).2 = none ↔
      (some true : Option Bool) = some true) ∧
    (handleRespondFingerprint true (some 7)
        initialSessionState).1.fingerprintSends = [false] := by
  have h := C5_fingerprint_confirmation_outcomes [70] (some true)
    initialSessionState true 7 rfl
  refine ⟨h.1, ?_⟩
  have h2 := h.2.2.2.2.2.2.2
  simpa using h2

/-- C6: `Bootup` consumes the user name, the address record and the auth
method byte in order, mapping each failure to its error code: user-name
parse failure to 0x01, address parse failure or empty address to 0x02,
auth-byte fetch failure or an unknown auth method to 0x03; on success the
next state is the `local` handler with no error. -/
theorem C6_bootup_error_taxonomy (emsg : String) (user : List Nat)
    (addrStr : String) (b bBad : Nat)
    (addrRes : Except String String) (authRes : Except String Nat)
    (haddr : addrStr.length > 0)
    (hb : b = SSHAuthMethodNone ∨ b = SSHAuthMethodPassphrase ∨
          b = SSHAuthMethodPrivateKey)
    (hbBad : bBad ≠ SSHAuthMethodNone ∧ bBad ≠ SSHAuthMethodPassphrase ∧
             bBad ≠ SSHAuthMethodPrivateKey) :
    Bootup (.error emsg) addrRes authRes
      = (none, some ⟨emsg, SSHRequestErrorBadUserName⟩) ∧
    Bootup (.ok user) (.error emsg) authRes
      = (none, some ⟨emsg, SSHRequestErrorBadRemoteAddress⟩) ∧
    Bootup (.ok user) (.ok "") authRes
      = (none, some ⟨sshErrorMessage .invalidAddress,
                     SSHRequestErrorBadRemoteAddress⟩) ∧
    Bootup (.ok user) (.ok addrStr) (.error emsg)
      = (none, some ⟨emsg, SSHRequestErrorBadAuthMethod⟩) ∧
    Bootup (.ok user) (.ok addrStr) (.ok bBad)
      = (none, some ⟨sshErrorMessage .invalidAuthMethod,
                     SSHRequestErrorBadAuthMethod⟩) ∧
    Bootup (.ok user) (.ok addrStr) (.ok b) = (some .localState, none) := by
  have hlen : ¬ (addrStr.length ≤ 0) := by omega
  obtain ⟨h1, h2, h3⟩ := hbBad
  refine ⟨rfl, rfl, rfl, ?_, ?_, ?_⟩
  · simp [Bootup, hlen]
  · simp [Bootup, hlen, buildAuthMethod, h1, h2, h3]
  · rcases hb with rfl | rfl | rfl <;>
      simp [Bootup, hlen, buildAuthMethod, SSHAuthMethodNone,
        SSHAuthMethodPassphrase, SSHAuthMethodPrivateKey]

theorem C6_bootup_error_taxonomy_witness :
    Bootup (.error "bad name") (.ok "host:22") (.ok 0)
      = (none, some ⟨"bad name", SSHRequestErrorBadUserName⟩) ∧
    Bootup (.ok [97]) (.ok "host:22") (.ok 5)
      = (none, some ⟨sshErrorMessage .invalidAuthMethod,
                     SSHRequestErrorBadAuthMethod⟩) ∧
    Bootup (.ok [97]) (.ok "host:22") (.ok 0)
      = (some .localState, none) := by
  have h := C6_bootup_error_taxonomy "bad name" [97] "host:22" 0 5
    (.ok "host:22") (.ok 0) (by decide) (Or.inl rfl) (by decide)
  exact ⟨h.1, h.2.2.2.2.1, h.2.2.2.2.2⟩

/-- Big-endian recombination of a 16-bit value from its two bytes. -/
theorem shiftLeft8_or (hi lo : Nat) (h : lo < 256) :
    (hi <<< 8) ||| lo = hi * 256 + lo := by
  have h' : lo < 2 ^ 8 := h
  have h28 : (256 : Nat) = 2 ^ 8 := by norm_num
  rw [Nat.shiftLeft_eq, h28, Nat.mul_comm hi (2 ^ 8)]
  exact (Nat.mul_add_lt_is_or h' hi).symm

/-- C7: a Resize frame reads 4 payload bytes, decodes rows and cols as
big-endian 16-bit values and invokes `WindowChange rows cols`; in
particular `[0x00, 0x18, 0x00, 0x50]` yields `WindowChange 24 80`; a
`WindowChange` failure is logged and the handler still returns no
error. -/
theorem C7_resize_big_endian (b0 b1 b2 b3 : Nat) (rest : List Nat)
    (s : SessionState) (a wf : Bool)
    (h1 : b1 < 256) (h3 : b3 < 256) (hremote : s.remoteConnCached = true) :
    handleResize a (b0 :: b1 :: b2 :: b3 :: rest) wf s
      = (s, none,
         SessionEvent.windowChange (b0 * 256 + b1) (b2 * 256 + b3)
           :: (if wf then [SessionEvent.logFailure] else [])) ∧
    handleResize a [0x00, 0x18, 0x00, 0x50] false s
      = (s, none, [SessionEvent.windowChange 24 80]) := by
  have hg : getRemote a s = (s, true) := by simp [getRemote, hremote]
  have key : ∀ (c0 c1 c2 c3 : Nat) (r : List Nat) (w : Bool),
      c1 < 256 → c3 < 256 →
      handleResize a (c0 :: c1 :: c2 :: c3 :: r) w s
        = (s, none,
           SessionEvent.windowChange (c0 * 256 + c1) (c2 * 256 + c3)
             :: (if w then [SessionEvent.logFailure] else [])) := by
    intro c0 c1 c2 c3 r w hc1 hc3
    simp [handleResize, hg, shiftLeft8_or c0 c1 hc1, shiftLeft8_or c2 c3 hc3]
  constructor
  · exact key b0 b1 b2 b3 rest wf h1 h3
  · simpa using key 0x00 0x18 0x00 0x50 [] false (by norm_num) (by norm_num)

theorem C7_resize_big_endian_witness :
    handleResize true [0x00, 0x18, 0x00, 0x50] false
        { initialSessionState with remoteConnCached := true }
      = ({ initialSessionState with remoteConnCached := true }, none,
         [SessionEvent.windowChange 24 80]) :=
  (C7_resize_big_endian 0 24 0 80 []
    { initialSessionState with remoteConnCached := true } true false
    (by norm_num) (by norm_num) rfl).2

/-- No operation ever lowers the channel-closed flags or revives a
cancelled context. -/
theorem step_preserves_close_flags (op : SessionOp) (s : SessionState)
    (hc : s.credentialReceiveClosed = true)
    (hf : s.fingerprintVerifyResultReceiveClosed = true)
    (hx : s.ctxCancelled = true) :
    (stepSession s op).credentialReceiveClosed = true ∧
    (stepSession s op).fingerprintVerifyResultReceiveClosed = true ∧
    (stepSession s op).ctxCancelled = true := by
  cases op with
  | close a => simp [stepSession, closeSession_fst, hc, hf]
  | frame f =>
    cases f with
    | stdIn a c =>
      simp [stepSession, localHandle, handleStdIn_fst, getRemote_fst,
        hc, hf, hx]
    | resize a p w =>
      simp [stepSession, localHandle, handleResize_fst, getRemote_fst,
        hc, hf, hx]
    | unknown m => exact ⟨hc, hf, hx⟩
    | respondCredential r c =>
      simp only [stepSession, localHandle, handleRespondCredential_fst]
      split
      · exact ⟨hc, hf, hx⟩
      · split <;> exact ⟨hc, hf, hx⟩
    | respondFingerprint a fe =>
      simp only [stepSession, localHandle, handleRespondFingerprint_fst]
      split
      · exact ⟨hc, hf, hx⟩
      · split
        · exact ⟨hc, hf, hx⟩
        · split <;> exact ⟨hc, hf, hx⟩

theorem runSession_preserves_close_flags (ops : List SessionOp)
    (s : SessionState)
    (hc : s.credentialReceiveClosed = true)
    (hf : s.fingerprintVerifyResultReceiveClosed = true)
    (hx : s.ctxCancelled = true) :
    (runSession s ops).credentialReceiveClosed = true ∧
    (runSession s ops).fingerprintVerifyResultReceiveClosed = true ∧
    (runSession s ops).ctxCancelled = true := by
  induction ops generalizing s with
  | nil => exact ⟨hc, hf, hx⟩
  | cons op rest ih =>
    obtain ⟨h1, h2, h3⟩ := step_preserves_close_flags op s hc hf hx
    exact ih (stepSession s op) h1 h2 h3

theorem closeSession_eq (a : Bool) (s : SessionState) :
    closeSession a s =
      ({ s with
         credentialProcessed := true,
         fingerprintProcessed := true,
         credentialReceiveClosed := true,
         fingerprintVerifyResultReceiveClosed := true,
         remoteConnCached :=
           s.remoteConnCached || (!s.remoteConnChanClosed && a),
         remoteConnChanClosed := true,
         ctxCancelled := true },
       none,
       (if s.credentialReceiveClosed then []
        else [SessionEvent.closeCredentialReceive]) ++
       ((if s.fingerprintVerifyResultReceiveClosed then []
         else [SessionEvent.closeFingerprintReceive]) ++
        ((if s.remoteConnCached || (!s.remoteConnChanClosed && a)
          then [SessionEvent.closerCalled] else []) ++
         ((if s.ctxCancelled then [] else [SessionEvent.cancelBaseCtx]) ++
          [SessionEvent.waitRemoteClose])))) := by
  rcases s with ⟨cp, fp, cc, fc, cs, fsd, rc, rx, cx⟩
  cases cc <;> cases fc <;> cases rc <;> cases rx <;> cases cx <;> cases a <;>
    simp [closeSession, getRemote]

/-- C8: `Close` is idempotent: a second call leaves the session state
unchanged, closes each rendezvous channel no further time (each is closed
at most once over both calls), cancels the base context at most once in
total, both calls return `nil`, and each call returns only after waiting
on `closeWait` (the wait is the last event before the `nil` return). -/
theorem C8_close_idempotent (s : SessionState) (a1 a2 : Bool) :
    (∀ ops : List SessionOp,
      (closeSession a2 (runSession (closeSession a1 s).1 ops)).2.2.count
          SessionEvent.closeCredentialReceive = 0 ∧
      (closeSession a2 (runSession (closeSession a1 s).1 ops)).2.2.count
          SessionEvent.closeFingerprintReceive = 0 ∧
      (closeSession a2 (runSession (closeSession a1 s).1 ops)).2.2.count
          SessionEvent.cancelBaseCtx = 0) ∧
    (closeSession a2 (closeSession a1 s).1).1 = (closeSession a1 s).1 ∧
    (closeSession a1 s).2.1 = none ∧
    (closeSession a2 (closeSession a1 s).1).2.1 = none ∧
    (closeSession a1 s).2.2.count SessionEvent.closeCredentialReceive ≤ 1 ∧
    (closeSession a2 (closeSession a1 s).1).2.2.count
        SessionEvent.closeCredentialReceive = 0 ∧
    (closeSession a1 s).2.2.count SessionEvent.closeFingerprintReceive ≤ 1 ∧
    (closeSession a2 (closeSession a1 s).1).2.2.count
        SessionEvent.closeFingerprintReceive = 0 ∧
    (closeSession a1 s).2.2.count SessionEvent.cancelBaseCtx
      ≤ (if s.ctxCancelled then 0 else 1) ∧
    (closeSession a2 (closeSession a1 s).1).2.2.count
        SessionEvent.cancelBaseCtx = 0 ∧
    (closeSession a1 s).2.2.getLast? = some SessionEvent.waitRemoteClose ∧
    (closeSession a2 (closeSession a1 s).1).2.2.getLast?
      = some SessionEvent.waitRemoteClose := by
  have hinter : ∀ ops : List SessionOp,
      (closeSession a2 (runSession (closeSession a1 s).1 ops)).2.2.count
          SessionEvent.closeCredentialReceive = 0 ∧
      (closeSession a2 (runSession (closeSession a1 s).1 ops)).2.2.count
          SessionEvent.closeFingerprintReceive = 0 ∧
      (closeSession a2 (runSession (closeSession a1 s).1 ops)).2.2.count
          SessionEvent.cancelBaseCtx = 0 := by
    intro ops
    obtain ⟨pc, pf, px⟩ := runSession_preserves_close_flags ops
      (closeSession a1 s).1 (by simp [closeSession_fst])
      (by simp [closeSession_fst]) (by simp [closeSession_fst])
    refine ⟨?_, ?_, ?_⟩ <;>
      · rw [closeSession_eq]
        cases hq : ((runSession (closeSession a1 s).1 ops).remoteConnCached
            || (!(runSession (closeSession a1 s).1 ops).remoteConnChanClosed
                && a2)) <;>
          simp [pc, pf, px, hq]
  refine ⟨hinter, ?_⟩
  clear hinter
  rcases s with ⟨cp, fp, cc, fc, cs, fsd, rc, rx, cx⟩
  cases cc <;> cases fc <;> cases rc <;> cases rx <;> cases cx <;>
    cases a1 <;> cases a2 <;>
    simp [closeSession_eq]

/-- C9: during StdIn handling with a valid remote handle, a failing write
to the remote stdin is not surfaced: the handler calls `closer()`, logs,
keeps draining every remaining chunk and returns `nil`; the only errors
the branch can return are the failure to obtain the remote handle and a
read error from the framed payload. -/
theorem C9_stdin_write_failures_not_surfaced (s s2 : SessionState)
    (a a2 a3 : Bool) (chunks pre : List (List Nat × Bool))
    (post anyChunks : List StdInChunk)
    (hremote : s.remoteConnCached = true)
    (hunav : s2.remoteConnCached = false)
    (hclosed : s2.remoteConnChanClosed = true) :
    (handleStdIn a (chunks.map (fun c => StdInChunk.data c.1 c.2)) s).2.1
      = none ∧
    (handleStdIn a (chunks.map (fun c => StdInChunk.data c.1 c.2)) s).1
      = s ∧
    ((handleStdIn a (chunks.map (fun c => StdInChunk.data c.1 c.2))
        s).2.2.filterMap
        (fun e => match e with
          | SessionEvent.stdinWrite d => some d
          | _ => none))
      = chunks.map (fun c => c.1) ∧
    (handleStdIn a (chunks.map (fun c => StdInChunk.data c.1 c.2))
        s).2.2.count SessionEvent.closerCalled
      = (chunks.filter (fun c => c.2)).length ∧
    handleStdIn a2 anyChunks s2
      = (s2, some (.sshErr .remoteConnUnavailable), []) ∧
    (handleStdIn a3 (pre.map (fun c => StdInChunk.data c.1 c.2)
        ++ StdInChunk.readError :: post) s).2.1 = some .readErr := by
  have hg : ∀ x : Bool, getRemote x s = (s, true) := by
    intro x
    simp [getRemote, hremote]
  have hg2 : getRemote a2 s2 = (s2, false) := by
    simp [getRemote, hunav, hclosed]
  have hloop1 : ∀ cs : List (List Nat × Bool),
      stdInLoop (cs.map (fun c => StdInChunk.data c.1 c.2))
        = (none, cs.flatMap (fun c =>
            SessionEvent.stdinWrite c.1 ::
              (if c.2 then [SessionEvent.closerCalled,
                SessionEvent.logFailure] else []))) := by
    intro cs
    induction cs with
    | nil => rfl
    | cons c restc ih => simp [stdInLoop, ih]
  have hloop2 : ∀ (cs : List (List Nat × Bool)) (tail : List StdInChunk),
      (stdInLoop (cs.map (fun c => StdInChunk.data c.1 c.2)
        ++ StdInChunk.readError :: tail)).1 = some .readErr := by
    intro cs tail
    induction cs with
    | nil => rfl
    | cons c restc ih => simpa [stdInLoop] using ih
  refine ⟨?_, ?_, ?_, ?_, ?_, ?_⟩
  · simp [handleStdIn, hg, hloop1]
  · simp [handleStdIn, hg]
  · simp only [handleStdIn, hg, hloop1]
    simp only [if_true]
    induction chunks with
    | nil => rfl
    | cons c restc ih =>
      by_cases hcw : c.2 <;> simp [hcw, ih]
  · simp only [handleStdIn, hg, hloop1]
    simp only [if_true]
    induction chunks with
    | nil => rfl
    | cons c restc ih =>
      by_cases hcw : c.2 <;> simp [hcw, ih, List.count_cons]
  · simp [handleStdIn, hg2]
  · simp [handleStdIn, hg, hloop2]

theorem C9_stdin_write_failures_not_surfaced_witness :
    (handleStdIn true
        ([([5, 6], true), ([7], false)].map
          (fun c => StdInChunk.data c.1 c.2))
        { initialSessionState with remoteConnCached := true }).2.1
      = none ∧
    handleStdIn true [StdInChunk.data [1] false]
        { initialSessionState with remoteConnChanClosed := true }
      = ({ initialSessionState with remoteConnChanClosed := true },
         some (LocalError.sshErr SSHError.remoteConnUnavailable), []) := by
  have h := C9_stdin_write_failures_not_surfaced
    { initialSessionState with remoteConnCached := true }
    { initialSessionState with remoteConnChanClosed := true }
    true true true [([5, 6], true), ([7], false)] [] []
    [StdInChunk.data [1] false] rfl rfl rfl
  exact ⟨h.1, h.2.2.2.2.1⟩

end Sshwifty

